import Mathlib

/-!
Shallow embedding of `src/lib/connection.js` from the memcache-plus
repository: the single-connection memcache client (protocol parser and
response correlator, write buffer, reconnect backoff, and the command
API for `set`, `get`, `delete` and `autodiscovery`).

Lines arriving from the socket are modelled as `String`s (the `carrier`
collaborator delivers the inbound stream one line at a time).  The
deferred helper `misc.defer(key)` is modelled as a `Deferred` record
carrying a numeric identity and the correlation key; settling a deferred
is modelled as an explicit event rather than a mutation.
-/

namespace MemcachePlus

/-- A pending command in the FIFO command queue: the correlation key and
an identity for its completion handle (`misc.defer(key)`). -/
structure Deferred where
  id : Nat
  key : String
  deriving DecidableEq, Repr

/-- The JavaScript errors the connection can produce:
`memcacheError line key` is the rejection built in `read` for an `ERROR`
line (`Memcache returned an error: ... For key ...`); `mismatchError got`
is the error thrown by the `set` handler when the resolved value is not
`STORED`; `typeError` is the runtime error raised when the `set` handler
calls `toString` on a `null` value; `assertionError msg` is a failure of
`assert` in `set`. -/
inductive JsError where
  | memcacheError (rawLine : String) (key : String)
  | mismatchError (got : String)
  | typeError
  | assertionError (msg : String)
  deriving DecidableEq, Repr

/-- How a deferred settles: `resolve v` carries the value passed to
`deferred.resolve` (`none` models JavaScript `null`), `reject e` an
error passed to `deferred.reject`. -/
inductive SettleResult where
  | resolve (v : Option String)
  | reject (e : JsError)
  deriving DecidableEq, Repr

/-- What one call of `Connection.prototype.read` does besides updating
state: settle the head deferred, do nothing observable, or crash
(calling `.resolve` on the `undefined` result of shifting an empty
queue throws, killing the data callback). -/
inductive ReadOutcome where
  | settled (d : Deferred) (r : SettleResult)
  | ignored
  | crash
  deriving DecidableEq, Repr

/-- The parser state of a connection: the FIFO command queue (head at
the front) and the single-slot accumulator `this.data` (the pending
value; `none` models `null`). -/
structure ReadState where
  queue : List Deferred
  data : Option String
  deriving DecidableEq, Repr

/-- JavaScript `line.substr(0, p.length) === p`, the prefix test used by
`read` for each protocol token.  Taking the first `n` characters and
comparing against an `n`-character token is the same as asking whether
the token is a prefix of the line. -/
def startsWithTok (line : String) (p : String) : Bool :=
  p.data.isPrefixOf line.data

/-- `Connection.prototype.read` (src/lib/connection.js lines 123-156),
processing one inbound line against the current state.  Branches are in
source order: `ERROR` (reject head if the queue is non-empty, else
ignore), `VALUE` (metadata, ignored), `END` (resolve head with the
accumulated data), `STORED`/`DELETED` and `NOT_FOUND` (resolve head with
the raw line), any other non-empty line (store into the accumulator),
empty line (ignored).  Branches that shift an empty queue crash, since
`queue.shift()` yields `undefined` and `.resolve` is then a type error. -/
def read (st : ReadState) (line : String) : ReadState × ReadOutcome :=
  if startsWithTok line "ERROR" then
    match st.queue with
    | [] => (st, .ignored)
    | d :: rest =>
      (⟨rest, none⟩, .settled d (.reject (.memcacheError line d.key)))
  else if startsWithTok line "VALUE" then
    (st, .ignored)
  else if startsWithTok line "END" then
    match st.queue with
    | [] => (st, .crash)
    | d :: rest => (⟨rest, none⟩, .settled d (.resolve st.data))
  else if startsWithTok line "STORED" || startsWithTok line "DELETED" then
    match st.queue with
    | [] => (st, .crash)
    | d :: rest => (⟨rest, none⟩, .settled d (.resolve (some line)))
  else if startsWithTok line "NOT_FOUND" then
    match st.queue with
    | [] => (st, .crash)
    | d :: rest => (⟨rest, none⟩, .settled d (.resolve (some line)))
  else if line ≠ "" then
    ({ st with data := some line }, .ignored)
  else
    (st, .ignored)

/-- Feed a list of inbound lines through `read`, collecting the
settlement events in the order they fire.  A crash stops processing
(an uncaught exception in the data event handler). -/
def runRead : ReadState → List String → ReadState × List (Deferred × SettleResult)
  | st, [] => (st, [])
  | st, l :: ls =>
    match read st l with
    | (st1, .settled d r) =>
      let rec2 := runRead st1 ls
      (rec2.1, (d, r) :: rec2.2)
    | (st1, .ignored) => runRead st1 ls
    | (st1, .crash) => (st1, [])

/-- The final outcome of a `set(key, value, ttl)` future after its
`.then` handler. -/
inductive SetResult where
  | ok
  | err (e : JsError)
  deriving DecidableEq, Repr

/-- The `.then` handler attached in `Connection.prototype.set`
(lines 245-253): a rejection of the deferred passes through; a resolved
`null` crashes on `data.toString()`; otherwise the call succeeds exactly
when the resolved value is `STORED` and throws the mismatch error
naming the value it got otherwise. -/
def setThen : SettleResult → SetResult
  | .reject e => .err e
  | .resolve none => .err .typeError
  | .resolve (some s) =>
    if s = "STORED" then .ok else .err (.mismatchError s)

/-- The final outcome of a `get(key)` future after its `.then` handler
(`ok none` models resolving with `null`). -/
inductive GetResult where
  | ok (v : Option String)
  | err (e : JsError)
  deriving DecidableEq, Repr

/-- The `.then` handler attached in `Connection.prototype.get`
(lines 270-279): `data ? data.toString() : null`. -/
def getThen : SettleResult → GetResult
  | .reject e => .err e
  | .resolve v => .ok v

/-- The final outcome of a `delete(key)` future after its `.then`
handler. -/
inductive DeleteResult where
  | ok (b : Bool)
  | err (e : JsError)
  deriving DecidableEq, Repr

/-- The `.then` handler attached in `Connection.prototype.delete`
(lines 295-302): `v === 'DELETED'`; strict equality against the string
`DELETED`, false for every other value including `null`. -/
def deleteThen : SettleResult → DeleteResult
  | .reject e => .err e
  | .resolve v => .ok (decide (v = some "DELETED"))

/-- The settlement (if any) that processing one line produces, paired
with the deferred it settles. -/
def settledResult (st : ReadState) (line : String) :
    Option (Deferred × SettleResult) :=
  match (read st line).2 with
  | .settled d r => some (d, r)
  | _ => none

/-- The settled outcome of a pending `set` command when `line` arrives
with that command at the head of the queue. -/
def settleSet (st : ReadState) (line : String) : Option SetResult :=
  (settledResult st line).map fun p => setThen p.2

/-- The settled outcome of a pending `delete` command when `line`
arrives with that command at the head of the queue. -/
def settleDelete (st : ReadState) (line : String) : Option DeleteResult :=
  (settledResult st line).map fun p => deleteThen p.2

/-- A line that `read` treats as raw payload data: it matches none of
the protocol token tests and is non-empty. -/
def isDataLine (l : String) : Bool :=
  !startsWithTok l "ERROR" && !startsWithTok l "VALUE" &&
    !startsWithTok l "END" && !startsWithTok l "STORED" &&
    !startsWithTok l "DELETED" && !startsWithTok l "NOT_FOUND" &&
    !(l = "")

/-- Is an error the mismatch error thrown by the `set` handler? -/
def isMismatchErr : JsError → Bool
  | .mismatchError _ => true
  | _ => false

/-! ## Write buffer (`write` / `flushQueue`) -/

/-- The line terminator appended after each written chunk. -/
def crlf : String := "\r\n"

/-- State of the outbound side of the connection: the `ready` flag, the
write buffer `this.writeBuffer` (front = next to shift), and the list of
chunks already written to the socket, in order. -/
structure WriteState where
  ready : Bool
  writeBuffer : List String
  sent : List String
  deriving DecidableEq, Repr

/-- The `while` loop of `Connection.prototype.flushQueue`
(lines 158-166): shift chunks off the buffer one at a time and write
each to the socket. -/
def drainAll : List String → List String → List String
  | sent, [] => sent
  | sent, c :: rest => drainAll (sent ++ [c]) rest

/-- `Connection.prototype.flushQueue`: drain the write buffer to the
socket in FIFO order. -/
def flushQueue (st : WriteState) : WriteState :=
  { st with writeBuffer := [], sent := drainAll st.sent st.writeBuffer }

/-- `Connection.prototype.write` (lines 168-190), translated exactly as
written: when `this.ready && this.writeBuffer.length > 0` the chunk and
its terminator are written straight to the socket; otherwise both are
pushed onto the buffer, and if `ready` the buffer is then flushed. -/
def write (st : WriteState) (str : String) : WriteState :=
  if st.ready && decide (st.writeBuffer.length > 0) then
    { st with sent := st.sent ++ [str, crlf] }
  else
    let st1 : WriteState := { st with writeBuffer := st.writeBuffer ++ [str, crlf] }
    if st.ready then flushQueue st1 else st1

/-! ## Reconnect backoff -/

/-- The two `backoff` properties in play around the reconnect logic.
`connBackoff` is the Connection field set in the constructor
(`opts.backoff || 10`, line 43) and reset by the bound `connect`
handler; `sockBackoff` is the `backoff` property of the socket object.
The `close` listener (lines 84-100) is registered as a plain unbound
function — unlike the `connect` listener, which is `.bind(this)` at
line 118 — so inside it `this` is the event emitter, i.e. the socket,
and `this.backoff` reads `sockBackoff`.  No code ever assigns a number
to the socket property, so it holds `undefined`, modelled as `none`. -/
structure BackoffState where
  connBackoff : Nat
  sockBackoff : Option Nat
  deriving DecidableEq, Repr

/-- The `close` handler body (lines 84-100) as it actually executes,
with `this` bound to the socket: evaluate `this.backoff < 60000`
(`undefined < 60000` is false in JavaScript, so with an undefined
property the doubling on line 89 is skipped), then hand `this.backoff`
to `setTimeout` as the reconnect delay.  The returned `Option Nat` is
that delay; `none` is `undefined`, which Node treats as a ~1 ms
timer. -/
def closeHandler (s : BackoffState) : BackoffState × Option Nat :=
  match s.sockBackoff with
  | none => (s, none)
  | some b =>
    if b < 60000 then
      ({ s with sockBackoff := some (b * 2) }, some (b * 2))
    else (s, some b)

/-- The backoff reset in the bound `connect` handler (line 109): on
every successful connect the Connection backoff becomes 10. -/
def connectHandler (s : BackoffState) : BackoffState :=
  { s with connBackoff := 10 }

/-- The state after `n` consecutive `close` events with no successful
connect in between. -/
def closesAfter (s : BackoffState) : Nat → BackoffState
  | 0 => s
  | n + 1 => (closeHandler (closesAfter s n)).1

/-! ## `set` call validation -/

/-- A JavaScript value passed as the `key` argument of `set`: either a
string or some non-string value. -/
inductive JsVal where
  | vstr (s : String)
  | nonString
  deriving DecidableEq, Repr

/-- Connection state visible to a `set` call: the pending-command queue
and the outbound write state. -/
structure ConnState where
  queue : List Deferred
  ws : WriteState
  deriving DecidableEq, Repr

/-- Byte length of `new Buffer(val)` for a string value. -/
def bufLen (s : String) : Nat := s.utf8ByteSize

/-- The synchronous part of `Connection.prototype.set`
(lines 215-243) with `did` the identity of the fresh deferred: assert
the key is a string, assert its length is below 250 (each `assert`
throws before any state is touched, so a failure returns the state
unchanged together with the assertion error), then push the deferred
and write the header line `set {key} 0 {ttl} {len}` followed by the
value. -/
def setCall (st : ConnState) (did : Nat) (key : JsVal) (val : String)
    (ttl : Nat) : ConnState × Option JsError :=
  match key with
  | .nonString =>
    (st, some (.assertionError "Cannot set in memcache with a not string key"))
  | .vstr k =>
    if k.length < 250 then
      let st1 : ConnState := { st with queue := st.queue ++ [⟨did, k⟩] }
      let st2 : ConnState :=
        { st1 with
          ws := write st1.ws
            ("set " ++ k ++ " 0 " ++ toString ttl ++ " " ++ toString (bufLen val)) }
      let st3 : ConnState := { st2 with ws := write st2.ws val }
      (st3, none)
    else
      (st, some (.assertionError "Key must be less than 250 characters long"))

/-! ## Autodiscovery parsing -/

/-- JavaScript `String.prototype.split` with a one-character separator:
splitting never yields an empty list (splitting the empty string yields
one empty field). -/
def jsSplit (sep : Char) : List Char → List (List Char)
  | [] => [[]]
  | c :: rest =>
    let r := jsSplit sep rest
    if c = sep then [] :: r
    else
      match r with
      | [] => [[c]]
      | g :: gs => (c :: g) :: gs

/-- JavaScript array indexing for a list of fields: out-of-range reads
give `undefined`, which `util.format` renders as the string
`undefined`. -/
def jsAt (l : List (List Char)) (i : Nat) : String :=
  match l.get? i with
  | some cs => String.mk cs
  | none => "undefined"

/-- The `.then` transform of `Connection.prototype.autodiscovery`
(lines 198-209): split the payload on spaces, split each token on `|`,
and format field 0 and field 2 of each token as `{0}:{2}`. -/
def autodiscoveryParse (payload : String) : List String :=
  (jsSplit ' ' payload.data).map fun host =>
    let parts := jsSplit '|' host
    jsAt parts 0 ++ ":" ++ jsAt parts 2

/-! ## Helper lemmas -/

/-- Processing one line either settles the current head of the queue,
leaving exactly the tail, or settles nothing and leaves the queue
unchanged. -/
theorem read_queue_shape (st : ReadState) (l : String) :
    (∃ d r, st.queue = d :: (read st l).1.queue ∧ (read st l).2 = .settled d r) ∨
    ((read st l).1.queue = st.queue ∧ ∀ d r, (read st l).2 ≠ .settled d r) := by
  unfold read
  repeat' split
  all_goals simp_all

/-- A line carrying one prefix token cannot carry another token that
disagrees with the first at some shared index. -/
theorem startsWithTok_mismatch (l p q : String) (i : Nat)
    (hp : startsWithTok l p = true)
    (hip : i < p.data.length) (hiq : i < q.data.length)
    (hne : p.data[i]? ≠ q.data[i]?) :
    startsWithTok l q = false := by
  unfold startsWithTok at hp ⊢
  rw [List.isPrefixOf_iff_prefix] at hp
  by_contra h
  rw [Bool.not_eq_false, List.isPrefixOf_iff_prefix] at h
  obtain ⟨t, ht⟩ := hp
  obtain ⟨s, hs⟩ := h
  apply hne
  calc p.data[i]? = l.data[i]? := by rw [← ht, List.getElem?_append_left hip]
    _ = q.data[i]? := by rw [← hs, List.getElem?_append_left hiq]

/-- With a pending command at the head of the queue, every inbound line
falls in exactly one of four buckets: an `ERROR` line rejects the head;
an `END` line resolves it with the accumulated data; a line bearing one
of the `STORED`, `DELETED`, `NOT_FOUND` tokens resolves it with the raw
line; every other line settles nothing and bears none of the terminal
tokens. -/
theorem settled_classification (st : ReadState) (d : Deferred)
    (rest : List Deferred) (line : String) (hq : st.queue = d :: rest) :
    (startsWithTok line "ERROR" = true ∧
      settledResult st line = some (d, .reject (.memcacheError line d.key))) ∨
    (startsWithTok line "END" = true ∧
      settledResult st line = some (d, .resolve st.data)) ∨
    ((startsWithTok line "STORED" = true ∨ startsWithTok line "DELETED" = true ∨
        startsWithTok line "NOT_FOUND" = true) ∧
      settledResult st line = some (d, .resolve (some line))) ∨
    (settledResult st line = none ∧
      startsWithTok line "ERROR" = false ∧ startsWithTok line "END" = false ∧
      startsWithTok line "STORED" = false ∧
      startsWithTok line "DELETED" = false ∧
      startsWithTok line "NOT_FOUND" = false) := by
  by_cases h1 : startsWithTok line "ERROR" = true
  · left
    refine ⟨h1, ?_⟩
    unfold settledResult read
    simp [h1, hq]
  · replace h1 : startsWithTok line "ERROR" = false := by
      simpa using h1
    by_cases h2 : startsWithTok line "VALUE" = true
    · right; right; right
      have hEnd := startsWithTok_mismatch line "VALUE" "END" 0 h2
        (by decide) (by decide) (by decide)
      have hSt := startsWithTok_mismatch line "VALUE" "STORED" 0 h2
        (by decide) (by decide) (by decide)
      have hDe := startsWithTok_mismatch line "VALUE" "DELETED" 0 h2
        (by decide) (by decide) (by decide)
      have hNf := startsWithTok_mismatch line "VALUE" "NOT_FOUND" 0 h2
        (by decide) (by decide) (by decide)
      refine ⟨?_, h1, hEnd, hSt, hDe, hNf⟩
      unfold settledResult read
      simp [h1, h2]
    · replace h2 : startsWithTok line "VALUE" = false := by
        simpa using h2
      by_cases h3 : startsWithTok line "END" = true
      · right; left
        refine ⟨h3, ?_⟩
        unfold settledResult read
        simp [h1, h2, h3, hq]
      · replace h3 : startsWithTok line "END" = false := by
          simpa using h3
        by_cases h4 : startsWithTok line "STORED" = true
        · right; right; left
          refine ⟨Or.inl h4, ?_⟩
          unfold settledResult read
          simp [h1, h2, h3, h4, hq]
        · replace h4 : startsWithTok line "STORED" = false := by
            simpa using h4
          by_cases h5 : startsWithTok line "DELETED" = true
          · right; right; left
            refine ⟨Or.inr (Or.inl h5), ?_⟩
            unfold settledResult read
            simp [h1, h2, h3, h4, h5, hq]
          · replace h5 : startsWithTok line "DELETED" = false := by
              simpa using h5
            by_cases h6 : startsWithTok line "NOT_FOUND" = true
            · right; right; left
              refine ⟨Or.inr (Or.inr h6), ?_⟩
              unfold settledResult read
              simp [h1, h2, h3, h4, h5, h6, hq]
            · replace h6 : startsWithTok line "NOT_FOUND" = false := by
                simpa using h6
              right; right; right
              refine ⟨?_, h1, h3, h4, h5, h6⟩
              unfold settledResult read
              by_cases h7 : line = ""
              · have z1 : startsWithTok "" "ERROR" = false := by decide
                have z2 : startsWithTok "" "VALUE" = false := by decide
                have z3 : startsWithTok "" "END" = false := by decide
                have z4 : startsWithTok "" "STORED" = false := by decide
                have z5 : startsWithTok "" "DELETED" = false := by decide
                have z6 : startsWithTok "" "NOT_FOUND" = false := by decide
                simp [h7, z1, z2, z3, z4, z5, z6]
              · simp [h1, h2, h3, h4, h5, h6, h7]

/-! ## Claim theorems -/

/-- C3: commands settle in issue order.  For any starting state and any
sequence of inbound protocol lines, the deferreds settled by the parser
are exactly an initial segment of the command queue, in queue (= issue)
order: the k-th settlement event settles the k-th pending command.  In
particular, for two commands A issued before B, A settles before B. -/
theorem settlements_in_issue_order (st : ReadState) (lines : List String) :
    (runRead st lines).2.map Prod.fst =
      st.queue.take (runRead st lines).2.length := by
  induction lines generalizing st with
  | nil => simp [runRead]
  | cons l ls ih =>
    rcases hr : read st l with ⟨st1, out⟩
    rcases read_queue_shape st l with ⟨d, r, hq, hs⟩ | ⟨hq, hns⟩
    · rw [hr] at hq hs
      subst hs
      simp only [runRead, hr]
      simp [hq, ih st1]
    · rw [hr] at hq hns
      cases out with
      | settled d r => exact absurd rfl (hns d r)
      | ignored =>
        simp only [runRead, hr]
        rw [← hq]
        exact ih st1
      | crash => simp [runRead, hr]

/-- C9: handling of an inbound line that starts with `ERROR`.  With a
non-empty queue, exactly the head pending command is popped and rejected
with the protocol error carrying the raw line and the head correlation
key, the pending-value accumulator is cleared, and the remaining pending
commands are untouched; with an empty queue the line is ignored and the
state is unchanged. -/
theorem error_line_behavior (st : ReadState) (line : String)
    (he : startsWithTok line "ERROR" = true) :
    (st.queue = [] → read st line = (st, .ignored)) ∧
    ∀ d rest, st.queue = d :: rest →
      read st line =
        (⟨rest, none⟩, .settled d (.reject (.memcacheError line d.key))) := by
  constructor
  · intro h
    unfold read
    simp [he, h]
  · intro d rest h
    unfold read
    simp [he, h]

/-- Witness for C9 at concrete inputs: an `ERROR` line with a two-element
queue rejects only the head and keeps the second pending command; with an
empty queue it settles nothing and leaves the accumulator alone. -/
theorem error_line_behavior_witness :
    read ⟨[], some "x"⟩ "ERROR bad" = (⟨[], some "x"⟩, .ignored) ∧
    read ⟨[⟨0, "k"⟩, ⟨1, "j"⟩], some "x"⟩ "ERROR bad" =
      (⟨[⟨1, "j"⟩], none⟩,
        .settled ⟨0, "k"⟩ (.reject (.memcacheError "ERROR bad" "k"))) :=
  ⟨(error_line_behavior ⟨[], some "x"⟩ "ERROR bad" (by decide)).1 rfl,
   (error_line_behavior ⟨[⟨0, "k"⟩, ⟨1, "j"⟩], some "x"⟩ "ERROR bad"
      (by decide)).2 ⟨0, "k"⟩ [⟨1, "j"⟩] rfl⟩

/-- C6 counterexample: a pending `set` completed by the terminal line
`END` with no accumulated data rejects with the runtime type error from
calling `toString` on `null`, which is not the protocol mismatch error
naming the unexpected line that the claim requires. -/
theorem set_end_rejects_with_type_error :
    settleSet ⟨[⟨0, "k"⟩], none⟩ "END" = some (.err .typeError) ∧
    isMismatchErr .typeError = false := by
  decide

/-- C6 (amended): a pending `set` completed by a terminal line resolves
successfully exactly when the line is `STORED`.  Any other line bearing
the `STORED`, `DELETED` or `NOT_FOUND` token rejects with the mismatch
error naming that line; an `END` line rejects with the mismatch error
naming the accumulated data line when one is present and with a runtime
type error when none is; an `ERROR` line rejects with the memcache
protocol error carrying the line and the correlation key. -/
theorem set_terminal_outcome (st : ReadState) (d : Deferred)
    (rest : List Deferred) (line : String) (hq : st.queue = d :: rest)
    (hdata : ∀ v, st.data = some v → isDataLine v = true) :
    (startsWithTok line "ERROR" = true →
      settleSet st line = some (.err (.memcacheError line d.key))) ∧
    (startsWithTok line "END" = true →
      settleSet st line = some (match st.data with
        | none => SetResult.err .typeError
        | some v => SetResult.err (.mismatchError v))) ∧
    ((startsWithTok line "STORED" = true ∨ startsWithTok line "DELETED" = true ∨
        startsWithTok line "NOT_FOUND" = true) →
      settleSet st line =
        some (if line = "STORED" then .ok else .err (.mismatchError line))) ∧
    (settleSet st line = some .ok ↔ line = "STORED") := by
  have data_ne : ∀ v, st.data = some v → v ≠ "STORED" := by
    intro v hv hcontra
    subst hcontra
    exact absurd (hdata _ hv) (by decide)
  refine ⟨?_, ?_, ?_, ?_⟩
  · intro hE
    unfold settleSet settledResult read
    simp [hE, hq, setThen]
  · intro hEnd
    have hE := startsWithTok_mismatch line "END" "ERROR" 1 hEnd
      (by decide) (by decide) (by decide)
    have hV := startsWithTok_mismatch line "END" "VALUE" 0 hEnd
      (by decide) (by decide) (by decide)
    unfold settleSet settledResult read
    cases hsd : st.data with
    | none => simp [hE, hV, hEnd, hq, hsd, setThen]
    | some v =>
      simp [hE, hV, hEnd, hq, hsd, setThen, data_ne v hsd]
  · rintro (hT | hT | hT)
    · have hE := startsWithTok_mismatch line "STORED" "ERROR" 0 hT
        (by decide) (by decide) (by decide)
      have hV := startsWithTok_mismatch line "STORED" "VALUE" 0 hT
        (by decide) (by decide) (by decide)
      have hEnd := startsWithTok_mismatch line "STORED" "END" 1 hT
        (by decide) (by decide) (by decide)
      unfold settleSet settledResult read
      simp [hE, hV, hEnd, hT, hq, setThen]
    · have hE := startsWithTok_mismatch line "DELETED" "ERROR" 0 hT
        (by decide) (by decide) (by decide)
      have hV := startsWithTok_mismatch line "DELETED" "VALUE" 0 hT
        (by decide) (by decide) (by decide)
      have hEnd := startsWithTok_mismatch line "DELETED" "END" 0 hT
        (by decide) (by decide) (by decide)
      unfold settleSet settledResult read
      simp [hE, hV, hEnd, hT, hq, setThen]
    · have hE := startsWithTok_mismatch line "NOT_FOUND" "ERROR" 0 hT
        (by decide) (by decide) (by decide)
      have hV := startsWithTok_mismatch line "NOT_FOUND" "VALUE" 0 hT
        (by decide) (by decide) (by decide)
      have hEnd := startsWithTok_mismatch line "NOT_FOUND" "END" 0 hT
        (by decide) (by decide) (by decide)
      have hSt := startsWithTok_mismatch line "NOT_FOUND" "STORED" 0 hT
        (by decide) (by decide) (by decide)
      have hDe := startsWithTok_mismatch line "NOT_FOUND" "DELETED" 0 hT
        (by decide) (by decide) (by decide)
      unfold settleSet settledResult read
      simp [hE, hV, hEnd, hSt, hDe, hT, hq, setThen]
  · constructor
    · intro h
      rcases settled_classification st d rest line hq with
        ⟨hE, hs⟩ | ⟨hEnd, hs⟩ | ⟨hT, hs⟩ | ⟨hs, _⟩
      · simp [settleSet, hs, setThen] at h
      · simp [settleSet, hs, setThen] at h
        cases hsd : st.data with
        | none => simp [hsd, setThen] at h
        | some v =>
          rw [hsd] at h
          simp only [setThen] at h
          by_cases hv : v = "STORED"
          · exact absurd hv (data_ne v hsd)
          · simp [hv] at h
      · simp only [settleSet, hs, Option.map_some, setThen] at h
        by_cases hv : line = "STORED"
        · exact hv
        · simp [setThen, hv] at h
      · simp [settleSet, hs] at h
    · intro h
      subst h
      have e1 : startsWithTok "STORED" "ERROR" = false := by decide
      have e2 : startsWithTok "STORED" "VALUE" = false := by decide
      have e3 : startsWithTok "STORED" "END" = false := by decide
      have e4 : startsWithTok "STORED" "STORED" = true := by decide
      unfold settleSet settledResult read
      simp [e1, e2, e3, e4, hq, setThen]

/-- Witness for C6 (amended) at concrete inputs: with a single pending
`set`, the line `DELETED` rejects with the mismatch error naming it, the
line `STORED` resolves, and an `ERROR` line rejects with the memcache
protocol error. -/
theorem set_terminal_outcome_witness :
    settleSet ⟨[⟨0, "k"⟩], none⟩ "DELETED" =
      some (.err (.mismatchError "DELETED")) ∧
    settleSet ⟨[⟨0, "k"⟩], none⟩ "STORED" = some .ok ∧
    settleSet ⟨[⟨0, "k"⟩], none⟩ "ERROR oops" =
      some (.err (.memcacheError "ERROR oops" "k")) := by
  have h1 := set_terminal_outcome ⟨[⟨0, "k"⟩], none⟩ ⟨0, "k"⟩ [] "DELETED"
    rfl (by intro v hv; cases hv)
  have h2 := set_terminal_outcome ⟨[⟨0, "k"⟩], none⟩ ⟨0, "k"⟩ [] "STORED"
    rfl (by intro v hv; cases hv)
  have h3 := set_terminal_outcome ⟨[⟨0, "k"⟩], none⟩ ⟨0, "k"⟩ [] "ERROR oops"
    rfl (by intro v hv; cases hv)
  refine ⟨?_, ?_, h3.1 (by decide)⟩
  · rw [h1.2.2.1 (Or.inr (Or.inl (by decide)))]
    decide
  · exact h2.2.2.2.2 rfl

/-- C8 counterexample: a pending `delete` completed by an `ERROR` line
rejects with the memcache protocol error; it does not resolve to a
boolean at all, while the claim requires every terminal line other than
`DELETED` to resolve the future to `false`. -/
theorem delete_error_line_rejects :
    settleDelete ⟨[⟨0, "k"⟩], none⟩ "ERROR" =
      some (.err (.memcacheError "ERROR" "k")) ∧
    some (DeleteResult.err (.memcacheError "ERROR" "k")) ≠
      some (DeleteResult.ok false) ∧
    some (DeleteResult.err (.memcacheError "ERROR" "k")) ≠
      some (DeleteResult.ok true) := by
  decide

/-- C8 (amended): a pending `delete` completed by a resolving terminal
line resolves to `true` exactly when the line is `DELETED`, and to
`false` for every other resolving terminal line — in particular it
resolves to `false`, and never rejects, on `NOT_FOUND`; but a pending
`delete` completed by an `ERROR` line rejects with the memcache protocol
error instead of resolving to `false`. -/
theorem delete_terminal_outcome (st : ReadState) (d : Deferred)
    (rest : List Deferred) (line : String) (hq : st.queue = d :: rest)
    (hdata : ∀ v, st.data = some v → isDataLine v = true) :
    (startsWithTok line "ERROR" = true →
      settleDelete st line = some (.err (.memcacheError line d.key))) ∧
    (startsWithTok line "END" = true →
      settleDelete st line = some (.ok false)) ∧
    ((startsWithTok line "STORED" = true ∨ startsWithTok line "DELETED" = true ∨
        startsWithTok line "NOT_FOUND" = true) →
      settleDelete st line = some (.ok (decide (line = "DELETED")))) ∧
    (settleDelete st line = some (.ok true) ↔ line = "DELETED") := by
  have data_ne : ∀ v, st.data = some v → v ≠ "DELETED" := by
    intro v hv hcontra
    subst hcontra
    exact absurd (hdata _ hv) (by decide)
  refine ⟨?_, ?_, ?_, ?_⟩
  · intro hE
    unfold settleDelete settledResult read
    simp [hE, hq, deleteThen]
  · intro hEnd
    have hE := startsWithTok_mismatch line "END" "ERROR" 1 hEnd
      (by decide) (by decide) (by decide)
    have hV := startsWithTok_mismatch line "END" "VALUE" 0 hEnd
      (by decide) (by decide) (by decide)
    unfold settleDelete settledResult read
    cases hsd : st.data with
    | none => simp [hE, hV, hEnd, hq, hsd, deleteThen]
    | some v =>
      simp [hE, hV, hEnd, hq, hsd, deleteThen, data_ne v hsd]
  · rintro (hT | hT | hT)
    · have hE := startsWithTok_mismatch line "STORED" "ERROR" 0 hT
        (by decide) (by decide) (by decide)
      have hV := startsWithTok_mismatch line "STORED" "VALUE" 0 hT
        (by decide) (by decide) (by decide)
      have hEnd := startsWithTok_mismatch line "STORED" "END" 1 hT
        (by decide) (by decide) (by decide)
      unfold settleDelete settledResult read
      simp [hE, hV, hEnd, hT, hq, deleteThen]
    · have hE := startsWithTok_mismatch line "DELETED" "ERROR" 0 hT
        (by decide) (by decide) (by decide)
      have hV := startsWithTok_mismatch line "DELETED" "VALUE" 0 hT
        (by decide) (by decide) (by decide)
      have hEnd := startsWithTok_mismatch line "DELETED" "END" 0 hT
        (by decide) (by decide) (by decide)
      unfold settleDelete settledResult read
      simp [hE, hV, hEnd, hT, hq, deleteThen]
    · have hE := startsWithTok_mismatch line "NOT_FOUND" "ERROR" 0 hT
        (by decide) (by decide) (by decide)
      have hV := startsWithTok_mismatch line "NOT_FOUND" "VALUE" 0 hT
        (by decide) (by decide) (by decide)
      have hEnd := startsWithTok_mismatch line "NOT_FOUND" "END" 0 hT
        (by decide) (by decide) (by decide)
      have hSt := startsWithTok_mismatch line "NOT_FOUND" "STORED" 0 hT
        (by decide) (by decide) (by decide)
      have hDe := startsWithTok_mismatch line "NOT_FOUND" "DELETED" 0 hT
        (by decide) (by decide) (by decide)
      unfold settleDelete settledResult read
      simp [hE, hV, hEnd, hSt, hDe, hT, hq, deleteThen]
  · constructor
    · intro h
      rcases settled_classification st d rest line hq with
        ⟨hE, hs⟩ | ⟨hEnd, hs⟩ | ⟨hT, hs⟩ | ⟨hs, _⟩
      · simp [settleDelete, hs, deleteThen] at h
      · simp only [settleDelete, hs, Option.map_some, deleteThen] at h
        cases hsd : st.data with
        | none => rw [hsd] at h; simp at h
        | some v =>
          rw [hsd] at h
          simp at h
          exact absurd h (data_ne v hsd)
      · simp only [settleDelete, hs, Option.map_some, deleteThen] at h
        simpa using h
      · simp [settleDelete, hs] at h
    · intro h
      subst h
      have e1 : startsWithTok "DELETED" "ERROR" = false := by decide
      have e2 : startsWithTok "DELETED" "VALUE" = false := by decide
      have e3 : startsWithTok "DELETED" "END" = false := by decide
      have e4 : startsWithTok "DELETED" "DELETED" = true := by decide
      have e5 : startsWithTok "DELETED" "STORED" = false := by decide
      unfold settleDelete settledResult read
      simp [e1, e2, e3, e4, e5, hq, deleteThen]

/-- Witness for C8 (amended) at concrete inputs: with a single pending
`delete`, the line `DELETED` resolves to `true` and `NOT_FOUND`
resolves to `false` (no rejection). -/
theorem delete_terminal_outcome_witness :
    settleDelete ⟨[⟨0, "k"⟩], none⟩ "DELETED" = some (.ok true) ∧
    settleDelete ⟨[⟨0, "k"⟩], none⟩ "NOT_FOUND" = some (.ok false) := by
  have h1 := delete_terminal_outcome ⟨[⟨0, "k"⟩], none⟩ ⟨0, "k"⟩ [] "DELETED"
    rfl (by intro v hv; cases hv)
  have h2 := delete_terminal_outcome ⟨[⟨0, "k"⟩], none⟩ ⟨0, "k"⟩ [] "NOT_FOUND"
    rfl (by intro v hv; cases hv)
  refine ⟨h1.2.2.2.2 rfl, ?_⟩
  rw [h2.2.2.1 (Or.inr (Or.inr (by decide)))]
  decide

/-- C7: completion of a `get` by an `END` terminal line.  Starting with
the pending `get` at the head and an empty accumulator: when a data
line `v` precedes `END`, the future resolves to that value as text;
when `END` arrives with no preceding data line (missing key), the future
resolves to the absent-value marker `null` — not an error. -/
theorem get_end_resolution (st : ReadState) (d : Deferred)
    (rest : List Deferred) (v : String) (hq : st.queue = d :: rest)
    (hd : st.data = none) (hv : isDataLine v = true) :
    (runRead st [v, "END"]).2.map (fun e => (e.1, getThen e.2)) =
      [(d, .ok (some v))] ∧
    (runRead st ["END"]).2.map (fun e => (e.1, getThen e.2)) =
      [(d, .ok none)] := by
  simp only [isDataLine, Bool.and_eq_true, Bool.not_eq_true'] at hv
  obtain ⟨⟨⟨⟨⟨⟨h1, h2⟩, h3⟩, h4⟩, h5⟩, h6⟩, h7⟩ := hv
  have h7' : v ≠ "" := by simpa using h7
  have e1 : startsWithTok "END" "ERROR" = false := by decide
  have e2 : startsWithTok "END" "VALUE" = false := by decide
  have e3 : startsWithTok "END" "END" = true := by decide
  have hend : read st "END" = (⟨rest, none⟩, .settled d (.resolve st.data)) := by
    unfold read
    simp [e1, e2, e3, hq]
  constructor
  · have hstep : read st v = ({ st with data := some v }, .ignored) := by
      unfold read
      simp [h1, h2, h3, h4, h5, h6, h7']
    have hstep2 : read { st with data := some v } "END" =
        (⟨rest, none⟩, .settled d (.resolve (some v))) := by
      unfold read
      simp [e1, e2, e3, hq]
    simp [runRead, hstep, hstep2, getThen]
  · simp [runRead, hend, hd, getThen]

/-- Witness for C7 at concrete inputs: a pending `get` receiving the
data line `hello` then `END` resolves to the text, and receiving a bare
`END` resolves to `null`. -/
theorem get_end_resolution_witness :
    (runRead ⟨[⟨0, "k"⟩], none⟩ ["hello", "END"]).2.map
        (fun e => (e.1, getThen e.2)) = [(⟨0, "k"⟩, .ok (some "hello"))] ∧
    (runRead ⟨[⟨0, "k"⟩], none⟩ ["END"]).2.map
        (fun e => (e.1, getThen e.2)) = [(⟨0, "k"⟩, .ok none)] :=
  get_end_resolution ⟨[⟨0, "k"⟩], none⟩ ⟨0, "k"⟩ [] "hello" rfl rfl (by decide)

/-- C10: a stored empty-string value is indistinguishable from a missing
key.  When the server emits a `VALUE` header, an empty data line, and
`END`, the parser ignores the empty line, the accumulator is never set,
and the `get` future resolves to `null` — exactly as for a bare `END`
response for a missing key. -/
theorem get_empty_value_resolves_null (st : ReadState) (d : Deferred)
    (rest : List Deferred) (hq : st.queue = d :: rest)
    (hd : st.data = none) :
    (runRead st ["VALUE k 0 0", "", "END"]).2.map
        (fun e => (e.1, getThen e.2)) = [(d, .ok none)] ∧
    (runRead st ["END"]).2.map (fun e => (e.1, getThen e.2)) =
      [(d, .ok none)] := by
  have v1 : startsWithTok "VALUE k 0 0" "ERROR" = false := by decide
  have v2 : startsWithTok "VALUE k 0 0" "VALUE" = true := by decide
  have z1 : startsWithTok "" "ERROR" = false := by decide
  have z2 : startsWithTok "" "VALUE" = false := by decide
  have z3 : startsWithTok "" "END" = false := by decide
  have z4 : startsWithTok "" "STORED" = false := by decide
  have z5 : startsWithTok "" "DELETED" = false := by decide
  have z6 : startsWithTok "" "NOT_FOUND" = false := by decide
  have e1 : startsWithTok "END" "ERROR" = false := by decide
  have e2 : startsWithTok "END" "VALUE" = false := by decide
  have e3 : startsWithTok "END" "END" = true := by decide
  have s1 : read st "VALUE k 0 0" = (st, .ignored) := by
    unfold read
    simp [v1, v2]
  have s2 : read st "" = (st, .ignored) := by
    unfold read
    simp [z1, z2, z3, z4, z5, z6]
  have s3 : read st "END" = (⟨rest, none⟩, .settled d (.resolve st.data)) := by
    unfold read
    simp [e1, e2, e3, hq]
  constructor
  · simp [runRead, s1, s2, s3, hd, getThen]
  · simp [runRead, s3, hd, getThen]

/-- Witness for C10 at concrete inputs: the response
`VALUE k 0 0`/empty line/`END` resolves the pending `get` to `null`,
just like a bare `END`. -/
theorem get_empty_value_resolves_null_witness :
    (runRead ⟨[⟨0, "k"⟩], none⟩ ["VALUE k 0 0", "", "END"]).2.map
        (fun e => (e.1, getThen e.2)) = [(⟨0, "k"⟩, .ok none)] ∧
    (runRead ⟨[⟨0, "k"⟩], none⟩ ["END"]).2.map
        (fun e => (e.1, getThen e.2)) = [(⟨0, "k"⟩, .ok none)] :=
  get_empty_value_resolves_null ⟨[⟨0, "k"⟩], none⟩ ⟨0, "k"⟩ [] rfl rfl

/-- C5: synchronous key validation in `set`.  A non-string key or a
string key of length at least 250 makes the call fail synchronously with
the corresponding assertion error and leaves the connection state —
command queue, write buffer and socket — completely untouched; a string
key shorter than 250 characters never produces a synchronous failure. -/
theorem set_key_validation (st : ConnState) (did : Nat) (key : JsVal)
    (val : String) (ttl : Nat) :
    (key = .nonString →
      setCall st did key val ttl =
        (st, some (.assertionError "Cannot set in memcache with a not string key"))) ∧
    (∀ k, key = .vstr k → 250 ≤ k.length →
      setCall st did key val ttl =
        (st, some (.assertionError "Key must be less than 250 characters long"))) ∧
    (∀ k, key = .vstr k → k.length < 250 →
      (setCall st did key val ttl).2 = none) := by
  refine ⟨?_, ?_, ?_⟩
  · intro h
    subst h
    rfl
  · intro k hk hlen
    subst hk
    simp [setCall, Nat.not_lt.mpr hlen]
  · intro k hk hlen
    subst hk
    simp [setCall, hlen]

set_option maxRecDepth 4000 in
/-- Witness for C5 at concrete inputs: a non-string key and a 250
character key each fail synchronously with the state unchanged, while a
short key passes validation. -/
theorem set_key_validation_witness :
    setCall ⟨[], ⟨false, [], []⟩⟩ 0 .nonString "v" 0 =
      (⟨[], ⟨false, [], []⟩⟩,
        some (.assertionError "Cannot set in memcache with a not string key")) ∧
    setCall ⟨[], ⟨false, [], []⟩⟩ 0
        (.vstr (String.mk (List.replicate 250 'a'))) "v" 0 =
      (⟨[], ⟨false, [], []⟩⟩,
        some (.assertionError "Key must be less than 250 characters long")) ∧
    (setCall ⟨[], ⟨false, [], []⟩⟩ 0 (.vstr "k") "v" 0).2 = none := by
  refine ⟨?_, ?_, ?_⟩
  · exact (set_key_validation ⟨[], ⟨false, [], []⟩⟩ 0 .nonString "v" 0).1 rfl
  · exact (set_key_validation ⟨[], ⟨false, [], []⟩⟩ 0
      (.vstr (String.mk (List.replicate 250 'a'))) "v" 0).2.1 _ rfl (by decide)
  · exact (set_key_validation ⟨[], ⟨false, [], []⟩⟩ 0
      (.vstr "k") "v" 0).2.2 _ rfl (by decide)

/-- C1 counterexample: on the payload from the claim the code resolves
to `hostname:port` pairs — fields 0 and 2 of each token — not to the
`ip:port` pairs the claim specifies. -/
theorem autodiscovery_not_ip_port :
    autodiscoveryParse "h1|10.0.0.1|11211 h2|10.0.0.2|11211" =
      ["h1:11211", "h2:11211"] ∧
    autodiscoveryParse "h1|10.0.0.1|11211 h2|10.0.0.2|11211" ≠
      ["10.0.0.1:11211", "10.0.0.2:11211"] := by
  decide

/-- A `hostname|ip|port` token as a single string. -/
def renderToken : String × String × String → String
  | (h, i, p) => h ++ "|" ++ i ++ "|" ++ p

/-- C1 (amended): for every payload of space-separated
`hostname|ip|port` tokens, `autodiscovery` resolves to the ordered list
of `hostname:port` strings (fields 0 and 2 of each token), one per token
in token order. -/
theorem autodiscovery_hostname_port (payload : String)
    (toks : List (String × String × String))
    (hsplit : jsSplit ' ' payload.data = toks.map fun t => (renderToken t).data)
    (hfields : ∀ t ∈ toks,
      jsSplit '|' (renderToken t).data = [t.1.data, t.2.1.data, t.2.2.data]) :
    autodiscoveryParse payload = toks.map fun t => t.1 ++ ":" ++ t.2.2 := by
  unfold autodiscoveryParse
  rw [hsplit, List.map_map]
  apply List.map_congr_left
  intro t ht
  simp only [Function.comp_apply, hfields t ht, jsAt]
  rfl

/-- Witness for C1 (amended) at the concrete payload of the claim. -/
theorem autodiscovery_hostname_port_witness :
    autodiscoveryParse "h1|10.0.0.1|11211 h2|10.0.0.2|11211" =
      ["h1:11211", "h2:11211"] := by
  have h := autodiscovery_hostname_port
    "h1|10.0.0.1|11211 h2|10.0.0.2|11211"
    [("h1", "10.0.0.1", "11211"), ("h2", "10.0.0.2", "11211")]
    (by decide) (by decide)
  simpa using h

/-- C2: evaluation of `write` at the states that decide the claim.  With
the connection ready and a chunk `a` still queued in the write buffer,
`write` sends the new chunk `b` straight to the socket and leaves `a`
buffered — `b` overtakes `a`, where the claim (and the comment in the
source) require `b` to be appended behind `a` and flushed in FIFO order.
When not ready the chunk is buffered; when ready with an empty buffer
the chunk is pushed and immediately flushed, so it does reach the socket
within the call. -/
theorem write_overtakes_buffered_chunks :
    write ⟨true, ["a", crlf], []⟩ "b" = ⟨true, ["a", crlf], ["b", crlf]⟩ ∧
    write ⟨false, [], []⟩ "a" = ⟨false, ["a", crlf], []⟩ ∧
    write ⟨true, [], []⟩ "c" = ⟨true, [], ["c", crlf]⟩ := by
  decide

/-- C4: evaluation of the reconnect backoff logic as the source actually
behaves.  The Connection starts with `connBackoff = 10` and the socket
property `undefined`.  Because the close handler runs with `this` bound
to the socket, every close cycle leaves both backoff fields unchanged
and passes an `undefined` delay to `setTimeout` (a ~1 ms timer): the
doubling never executes, so there is no 10, 20, 40, ... sequence and no
60000 cap ever comes into play; the bound connect handler does reset
the Connection backoff to 10, but nothing ever reads it. -/
theorem backoff_never_doubles :
    closeHandler ⟨10, none⟩ = (⟨10, none⟩, none) ∧
    closesAfter ⟨10, none⟩ 13 = ⟨10, none⟩ ∧
    (closeHandler (closesAfter ⟨10, none⟩ 13)).2 = none ∧
    (closeHandler (closesAfter ⟨10, none⟩ 13)).2 ≠ some 10 ∧
    connectHandler ⟨999, none⟩ = ⟨10, none⟩ := by
  decide

end MemcachePlus

open MemcachePlus in
example :
    read ⟨[⟨0, "k"⟩], none⟩ "ERROR" =
      (⟨[], none⟩, .settled ⟨0, "k"⟩ (.reject (.memcacheError "ERROR" "k"))) := by
  decide

open MemcachePlus in
example :
    runRead ⟨[⟨0, "k"⟩], none⟩ ["VALUE k 0 1", "v", "END"] =
      (⟨[], none⟩, [(⟨0, "k"⟩, .resolve (some "v"))]) := by
  decide

open MemcachePlus in
example :
    autodiscoveryParse "h1|10.0.0.1|11211 h2|10.0.0.2|11211" =
      ["h1:11211", "h2:11211"] := by
  decide

open MemcachePlus in
example :
    write ⟨true, ["a", crlf], []⟩ "b" = ⟨true, ["a", crlf], ["b", crlf]⟩ := by
  decide

open MemcachePlus in
example : (closeHandler ⟨10, none⟩).2 = none := by decide
